import Mathlib

/-
Shallow embedding of the calibration/simulation engine in src/pasta/model.py.

Modelling choices:
* Timestamps are integers counting days; pandas `date_range(tmin, tmax, freq='D')`
  becomes the list of consecutive integers from tmin to tmax, and label slicing
  `oseries[tmin:tmax]` becomes an inclusive filter on the (sorted) index.
* Scalar values are `Val`, a rationals-free IEEE-style domain with NaN and the two
  infinities (the source computes with numpy floats; the claims under study only
  need exact arithmetic plus NaN/inf propagation, never rounding).
* pandas `Timestamp.min` / `Timestamp.max` (the ns-resolution representable bounds,
  roughly 1677-09-21 and 2262-04-11) become the day-count sentinels below; every
  actual timestamp lies strictly between them.
* A missing attribute (`self.parameters` before `initialize` ran, `self.tmin`
  before `check_series` ran) is an `Option` that is `none`; Python exceptions
  (AssertionError / AttributeError / solver errors) become the `PyErr` sum type
  threaded through `Except`.
* Components, the noise model and the external solver are collaborators outside
  src/; their record types expose exactly the capability contract the model code
  uses (`nparam`, `simulate`, parameter rows, `tmin`/`tmax`, the Constant marker).
-/

namespace Pasta

/-- IEEE-style scalar: a finite (integer-valued) number, NaN, or an infinity. -/
inductive Val where
  | fin (q : Int)
  | nan
  | inf
  | ninf
  deriving DecidableEq, Repr

/-- Addition with IEEE NaN/infinity propagation (inf + -inf is NaN). -/
def Val.add : Val → Val → Val
  | .fin a, .fin b => .fin (a + b)
  | .nan, _ => .nan
  | _, .nan => .nan
  | .inf, .ninf => .nan
  | .ninf, .inf => .nan
  | .inf, _ => .inf
  | _, .inf => .inf
  | .ninf, _ => .ninf
  | _, .ninf => .ninf

/-- Negation. -/
def Val.neg : Val → Val
  | .fin a => .fin (-a)
  | .nan => .nan
  | .inf => .ninf
  | .ninf => .inf

/-- Subtraction, `a - b = a + (-b)`. -/
def Val.sub (a b : Val) : Val := a.add b.neg

/-- Multiplication with IEEE sign and NaN rules (0 * inf is NaN). -/
def Val.mul : Val → Val → Val
  | .fin a, .fin b => .fin (a * b)
  | .nan, _ => .nan
  | _, .nan => .nan
  | .inf, .inf => .inf
  | .inf, .ninf => .ninf
  | .ninf, .inf => .ninf
  | .ninf, .ninf => .inf
  | .inf, .fin b => if 0 < b then .inf else if b < 0 then .ninf else .nan
  | .fin a, .inf => if 0 < a then .inf else if a < 0 then .ninf else .nan
  | .ninf, .fin b => if 0 < b then .ninf else if b < 0 then .inf else .nan
  | .fin a, .ninf => if 0 < a then .ninf else if a < 0 then .inf else .nan

/-- `np.isnan`: true exactly on NaN (false on the infinities). -/
def Val.isNan : Val → Bool
  | .nan => true
  | _ => false

/-- Finiteness: true exactly on `fin` values. -/
def Val.isFinite : Val → Bool
  | .fin _ => true
  | _ => false

/-- Python `sum(r ** 2)`: square elementwise, then fold `+` from the integer 0. -/
def sumSq (l : List Val) : Val :=
  (l.map (fun v => v.mul v)).foldl Val.add (Val.fin 0)

/-- Python exceptions observable from the embedded methods. -/
inductive PyErr where
  | assertionError (msg : String)
  | attributeError (msg : String)
  | valueError (msg : String)
  | solverError
  deriving DecidableEq, Repr

/-- `pd.date_range(tmin, tmax, freq='D')`: consecutive days, empty when tmax < tmin. -/
def dateRange (tmin tmax : Int) : List Int :=
  (List.range (tmax - tmin + 1).toNat).map (fun i => tmin + (i : Int))

/-- Python slice `l[start : start + len]`: silently truncates at the end of `l`. -/
def pyslice (l : List Val) (start len : Nat) : List Val :=
  (l.drop start).take len

/-- Python slice `l[-n:]` (for `n = 0` this is the whole list, as in Python). -/
def negSlice (l : List Val) (n : Nat) : List Val :=
  if n = 0 then l else l.drop (l.length - n)

/-- Value of a time-indexed series at a timestamp; missing labels give NaN
(pandas reindexing semantics). -/
def lookupVal (s : List (Int × Val)) (t : Int) : Val :=
  match s with
  | [] => Val.nan
  | p :: rest => if p.1 = t then p.2 else lookupVal rest t

/-- Elementwise series addition over a shared index (`h += ts.simulate(...)`). -/
def zipAdd (a b : List Val) : List Val := List.zipWith Val.add a b

/-- One row of a collaborator's parameter specification frame: the row label is
the parameter name; the columns are initial value, bounds, vary flag and the
owning-stress name column (spec section 6: components and the noise transform
expose initial/bounds/vary/name rows). -/
structure PRow where
  label : String
  initial : Val
  pmin : Val
  pmax : Val
  vary : Bool
  name : String
  deriving DecidableEq, Repr

/-- One row of the model's parameter table (columns of model.py line 135, plus
the row label): initial, pmin, pmax, vary, optimal, name. -/
structure TRow where
  label : String
  initial : Val
  pmin : Val
  pmax : Val
  vary : Bool
  optimal : Val
  name : String
  deriving DecidableEq, Repr

/-- Appending a collaborator row into the model table: the `optimal` column is
absent from the collaborator frame, so pandas fills it with NaN. -/
def promoteRow (r : PRow) : TRow :=
  ⟨r.label, r.initial, r.pmin, r.pmax, r.vary, Val.nan, r.name⟩

/-- A stimulus-response component (external collaborator, tseries.py): the
capability contract used by model.py — `nparam`, `simulate(slice, tindex)`,
parameter rows, a valid window, and whether it is the trivial Constant variant
(the `isinstance(ts, Constant)` discriminant of check_series). -/
structure TComponent where
  name : String
  nparam : Nat
  sim : List Val → List Int → List Val
  tmin : Int
  tmax : Int
  isConstant : Bool
  parameters : List PRow

/-- The noise transform (external collaborator):
`simulate(residuals, odelt, parameter_slice, tindex)`. -/
structure NoiseModel where
  nparam : Nat
  sim : List Val → List Val → List Val → List Int → List Val
  parameters : List PRow

/-- The model object of model.py. `parameters`, `nparam`, `report`, `tmin`,
`tmax` are `none` while the corresponding attribute has not been assigned yet. -/
structure Model where
  oseries : List (Int × Val)
  tseriesdict : List TComponent
  noisemodel : Option NoiseModel
  tmin : Option Int
  tmax : Option Int
  parameters : Option (List TRow)
  nparam : Option Nat
  report : Option String

/-- First timestamp of the observed series (`oseries.index.min()`; the series is
nonempty and sorted by construction — check_oseries is the external cleaner). -/
def obsTminI (m : Model) : Int :=
  ((m.oseries.map Prod.fst).head?).getD 0

/-- Last timestamp of the observed series (`oseries.index.max()`). -/
def obsTmaxI (m : Model) : Int :=
  ((m.oseries.map Prod.fst).getLast?).getD 0

/-- Elapsed-time deltas `odelt`: gap in days to the previous observation, with a
NaN sentinel at the first entry (`index.to_series().diff()`). -/
def odeltGo (prev : Int) : List (Int × Val) → List (Int × Val)
  | [] => []
  | q :: rest => (q.1, Val.fin (q.1 - prev)) :: odeltGo q.1 rest

/-- Elapsed-time deltas of a series. -/
def odeltOf : List (Int × Val) → List (Int × Val)
  | [] => []
  | p :: rest => (p.1, Val.nan) :: odeltGo p.1 rest

/-- The simulate accumulation loop of model.py lines 93-96: starting from a
zero series, add each component's contribution computed on the slice
`parameters[istart : istart + ts.nparam]`, advancing `istart`. -/
def simLoop : List TComponent → List Val → List Int → Nat → List Val → List Val
  | [], _, _, _, h => h
  | c :: rest, ps, tindex, istart, h =>
      simLoop rest ps tindex (istart + c.nparam)
        (zipAdd h (c.sim (pyslice ps istart c.nparam) tindex))

/-- The body of Model.simulate once the window and parameter vector are known. -/
def Model.simulateCore (m : Model) (ps : List Val) (tmin tmax : Int) :
    List (Int × Val) :=
  let tindex := dateRange tmin tmax
  tindex.zip (simLoop m.tseriesdict ps tindex 0 (tindex.map (fun _ => Val.fin 0)))

/-- Model.simulate (model.py lines 64-97): default the window from the stored
Period State, assert both bounds are present ("model needs to be solved first"),
default the parameter vector from the table's optimal column (AttributeError
when the table attribute does not exist), then run the accumulation loop. -/
def Model.simulate (m : Model) (params? : Option (List Val))
    (tmin? tmax? : Option Int) : Except PyErr (List (Int × Val)) :=
  match tmin?.orElse (fun _ => m.tmin) with
  | none => .error (.assertionError "model needs to be solved first")
  | some tmin =>
    match tmax?.orElse (fun _ => m.tmax) with
    | none => .error (.assertionError "model needs to be solved first")
    | some tmax =>
      match params? with
      | some ps => .ok (m.simulateCore ps tmin tmax)
      | none =>
        match m.parameters with
        | some tbl => .ok (m.simulateCore (tbl.map (fun r => r.optimal)) tmin tmax)
        | none => .error (.attributeError "parameters")

/-- Calibration index: observed timestamps inside the inclusive window
(`self.oseries[tmin:tmax].index`, model.py line 108). -/
def calIdx (m : Model) (tmin tmax : Int) : List Int :=
  (m.oseries.filter (fun p => decide (tmin ≤ p.1) && decide (p.1 ≤ tmax))).map Prod.fst

/-- Model.residuals (model.py lines 99-123): default the window from the
observed extent, default parameters from the table's optimal column
(AttributeError when absent), compute observed minus simulated on the
calibration index, optionally pass through the noise model, and flag (the
printed diagnostic) exactly when `np.isnan(sum(r ** 2))`. -/
def Model.residuals (m : Model) (params? : Option (List Val))
    (tmin? tmax? : Option Int) (noise : Bool) :
    Except PyErr (List (Int × Val) × Bool) :=
  let tmin := tmin?.getD (obsTminI m)
  let tmax := tmax?.getD (obsTmaxI m)
  let tindex := calIdx m tmin tmax
  let core := fun (ps : List Val) =>
    let simS := m.simulateCore ps tmin tmax
    let r := tindex.map (fun t => (t, Val.sub (lookupVal m.oseries t) (lookupVal simS t)))
    let r :=
      if noise then
        match m.noisemodel with
        | some nm =>
            tindex.zip (nm.sim (r.map Prod.snd)
              (tindex.map (fun t => lookupVal (odeltOf m.oseries) t))
              (negSlice ps nm.nparam) tindex)
        | none => r
      else r
    Except.ok (r, (sumSq (r.map Prod.snd)).isNan)
  match params? with
  | some ps => core ps
  | none =>
    match m.parameters with
    | some tbl => core (tbl.map (fun r => r.optimal))
    | none => .error (.attributeError "parameters")

/-- Model.sse (model.py lines 125-127): sum of squares of the residual series. -/
def Model.sse (m : Model) (params? : Option (List Val))
    (tmin? tmax? : Option Int) (noise : Bool) : Except PyErr Val :=
  match m.residuals params? tmin? tmax? noise with
  | .error e => .error e
  | .ok (r, _) => .ok (sumSq (r.map Prod.snd))

/-- Day-count sentinel for `pd.Timestamp.min` (about 1677-09-21). -/
def pdTimestampMin : Int := -106752

/-- Day-count sentinel for `pd.Timestamp.max` (about 2262-04-11). -/
def pdTimestampMax : Int := 106751

/-- The tracking loop of check_series (model.py lines 224-231): skip Constant
components; otherwise lower the tracked minimum when `ts.tmin < tstmin` and
raise the tracked maximum when `ts.tmax > tstmax` (the comparisons exactly as
written in the source). -/
def cslTrack : List TComponent → Int × Int → Int × Int
  | [], acc => acc
  | c :: rest, (a, b) =>
      if c.isConstant then cslTrack rest (a, b)
      else cslTrack rest
        ((if c.tmin < a then c.tmin else a), (if b < c.tmax then c.tmax else b))

/-- Model.check_series (model.py lines 184-242): default the requested bounds
from the observed extent, warn (booleans returned) when a bound is not an
observed timestamp, run the tracking loop from the Timestamp sentinels, store
the pre-clip bounds on the model, and return the post-clip pair. -/
def Model.check_series (m : Model) (tmin? tmax? : Option Int) :
    Model × (Int × Int) × Bool × Bool :=
  let tmin := tmin?.getD (obsTminI m)
  let tmax := tmax?.getD (obsTmaxI m)
  let warnTmin := !((m.oseries.map Prod.fst).contains tmin)
  let warnTmax := !((m.oseries.map Prod.fst).contains tmax)
  let tr := cslTrack m.tseriesdict (pdTimestampMin, pdTimestampMax)
  let m' := { m with tmin := some tmin, tmax := some tmax }
  let rtmin := if tr.1 > tmin then tr.1 else tmin
  let rtmax := if tr.2 < tmax then tr.2 else tmax
  (m', (rtmin, rtmax), warnTmin, warnTmax)

/-- The freshly rebuilt parameter table (model.py lines 135-140): the
components' rows concatenated in registration order, then the noise model's
rows; the optimal column is filled with NaN by the append. -/
def Model.freshRows (m : Model) : List TRow :=
  ((m.tseriesdict.map (fun c => c.parameters.map promoteRow)).flatten) ++
    (match m.noisemodel with
     | some nm => nm.parameters.map promoteRow
     | none => [])

/-- The global parameter count (model.py lines 132-134). -/
def totalNparam (m : Model) : Nat :=
  ((m.tseriesdict.map (fun c => c.nparam)).sum) +
    (match m.noisemodel with
     | some nm => nm.nparam
     | none => 0)

/-- Label-aligned column read: `self.parameters.initial = optimal` assigns the
captured optimal Series into the rebuilt frame aligning on the row index (the
parameter labels); a label absent from the old table yields NaN. -/
def labelLookup (old : List TRow) (lab : String) : Val :=
  match old with
  | [] => Val.nan
  | r :: rest => if r.label = lab then r.optimal else labelLookup rest lab

/-- Model.initialize (model.py lines 129-142): with `initial = False` first
capture the old optimal column (AttributeError when the table attribute does
not exist), compute the global nparam, rebuild the table from the collaborators'
rows, and finally overwrite the initial column with the captured optimal values
(label-aligned). -/
def Model.initPars (m : Model) (initial : Bool) : Except PyErr Model :=
  if initial then
    .ok { m with nparam := some (totalNparam m), parameters := some m.freshRows }
  else
    match m.parameters with
    | none => .error (.attributeError "parameters")
    | some old =>
      .ok { m with
            nparam := some (totalNparam m),
            parameters :=
              some (m.freshRows.map
                (fun r => { r with initial := labelLookup old r.label })) }

/-- Behaviour of the external solver adapter on one run (spec section 6
contract: constructed with the model, window and noise flag; on success exposes
`optimal_params` and `report`; may raise). -/
inductive SolverOutcome where
  | raises
  | fits (optimal : List Val) (rep : String)

/-- Outcome of Model.solve: the model state when the call returns or when the
exception escapes, the escaped exception if any, and whether the missing-noise
warning was printed. -/
structure SolveRes where
  model : Model
  err : Option PyErr
  noiseWarn : Bool

/-- Model.solve (model.py lines 144-180): warn when noise is requested without
a noise model, run check_series (storing the Period State), rebuild the
parameter table, invoke the solver, and on success write `fit.optimal_params`
into the optimal column (positional, length-checked by pandas) and store the
report. An exception at any step escapes with the mutations so far retained. -/
def Model.solve (m : Model) (tmin? tmax? : Option Int) (sv : SolverOutcome)
    (noise initial : Bool) : SolveRes :=
  let noiseWarn := noise && m.noisemodel.isNone
  let (m1, _ret, _w1, _w2) := m.check_series tmin? tmax?
  match m1.initPars initial with
  | .error e => ⟨m1, some e, noiseWarn⟩
  | .ok m2 =>
    match sv with
    | .raises => ⟨m2, some PyErr.solverError, noiseWarn⟩
    | .fits opt rep =>
      match m2.parameters with
      | none => ⟨m2, some (PyErr.attributeError "parameters"), noiseWarn⟩
      | some tbl =>
        if opt.length = tbl.length then
          ⟨{ m2 with
              parameters :=
                some ((tbl.zip opt).map (fun p => { p.1 with optimal := p.2 })),
              report := some rep }, none, noiseWarn⟩
        else ⟨m2, some (PyErr.valueError "Length of values does not match length of index"), noiseWarn⟩

/-- The list of per-component contributions, each computed independently on the
contiguous slice of the parameter vector starting at the running offset: the
denotation of the simulate loop as independent summands. -/
def contribsFrom : List TComponent → List Val → List Int → Nat → List (List Val)
  | [], _, _, _ => []
  | c :: rest, ps, tindex, istart =>
      c.sim (pyslice ps istart c.nparam) tindex ::
        contribsFrom rest ps tindex (istart + c.nparam)

/-- Elementwise sum of contribution series over a time index, starting from the
zero series. -/
def sumSeries (tindex : List Int) (ls : List (List Val)) : List Val :=
  ls.foldl zipAdd (tindex.map (fun _ => Val.fin 0))

/-- Start of component `i`'s slice of the global parameter vector: the sum of
the earlier components' parameter counts. -/
def offsetAt (reg : List TComponent) (i : Nat) : Nat :=
  ((reg.take i).map (fun c => c.nparam)).sum

/-- Placeholder component used as `List.getD` default. -/
def dummyComp : TComponent := ⟨"", 0, fun _ _ => [], 0, 0, true, []⟩

/-- Sum of the registered components' parameter counts (excluding the noise
model): the length of the prefix of the parameter vector that simulate slices. -/
def compNparamSum (reg : List TComponent) : Nat :=
  (reg.map (fun c => c.nparam)).sum

/-- Example stress component: non-constant, one parameter, valid only on days
3 to 6; simulates a constant series at its single parameter value. -/
def c1comp : TComponent :=
  ⟨"S", 1, fun ps t => t.map (fun _ => ps.getD 0 (Val.fin 0)), 3, 6, false,
    [⟨"S_a", Val.fin 0, Val.ninf, Val.inf, true, "S"⟩]⟩

/-- Example model: ten daily observations on days 0..9 and the narrow-window
component `c1comp`; nothing solved yet. -/
def c1model : Model :=
  ⟨(List.range 10).map (fun i => ((i : Int), Val.fin 1)), [c1comp], none,
    none, none, none, none, none⟩

/-- Example model with a prior fit: parameter table present with optimal value
5 for the single parameter of `c1comp`, and a stored report. -/
def c2model : Model :=
  ⟨[(0, Val.fin 1)], [c1comp], none, some 0, some 0,
    some [⟨"S_a", Val.fin 0, Val.ninf, Val.inf, true, Val.fin 5, "S"⟩],
    some 1, some "prior"⟩

/-- Example observed series for the residual identity: observations on days 0
and 2 with a gap at day 1, plus `c1comp`. -/
def c3model : Model :=
  ⟨[(0, Val.fin 10), (2, Val.fin 20)], [c1comp], none, none, none, none, none,
    none⟩

/-- Constant component for the two-component slicing scenario: one parameter. -/
def c4comp1 : TComponent :=
  ⟨"d", 1, fun ps t => t.map (fun _ => ps.getD 0 (Val.fin 0)), 0, 0, true,
    [⟨"d_v", Val.fin 0, Val.ninf, Val.inf, true, "d"⟩]⟩

/-- Time-varying component for the two-component slicing scenario: two
parameters, contribution `a * t + b` at day `t`. -/
def c4comp2 : TComponent :=
  ⟨"T", 2, fun ps t => t.map (fun x =>
      (Val.mul (ps.getD 0 (Val.fin 0)) (Val.fin x)).add (ps.getD 1 (Val.fin 0))),
    0, 9, false,
    [⟨"T_a", Val.fin 1, Val.ninf, Val.inf, true, "T"⟩,
     ⟨"T_b", Val.fin 0, Val.ninf, Val.inf, true, "T"⟩]⟩

/-- Two-component example model (Scenario B shape). -/
def c4model : Model :=
  ⟨(List.range 10).map (fun i => ((i : Int), Val.fin 1)), [c4comp1, c4comp2],
    none, none, none, none, none, none⟩

/-- Freshly constructed model: no components solved, no table, no period. -/
def c5model : Model := ⟨[(0, Val.fin 1)], [], none, none, none, none, none, none⟩

/-- Component that reports the length of the parameter slice it received:
`nparam = 2`, contribution constantly the received slice's length. -/
def c6comp : TComponent :=
  ⟨"L", 2, fun q t => t.map (fun _ => Val.fin (q.length : Int)), 0, 1, false,
    [⟨"L_1", Val.fin 0, Val.ninf, Val.inf, true, "L"⟩,
     ⟨"L_2", Val.fin 0, Val.ninf, Val.inf, true, "L"⟩]⟩

/-- Model holding only `c6comp`, so the total component parameter count is 2. -/
def c6model : Model := ⟨[(0, Val.fin 0)], [c6comp], none, none, none, none, none, none⟩

/-- Model for the warm-start witness: one two-parameter component and an
existing table whose optimal column holds 7 and 8. -/
def c7model : Model :=
  ⟨[(0, Val.fin 1)],
   [⟨"B", 2, fun _ t => t.map (fun _ => Val.fin 0), 0, 9, false,
      [⟨"b1", Val.fin 1, Val.ninf, Val.inf, true, "B"⟩,
       ⟨"b2", Val.fin 2, Val.ninf, Val.inf, true, "B"⟩]⟩],
   none, none, none,
   some [⟨"b1", Val.fin 1, Val.ninf, Val.inf, true, Val.fin 7, "B"⟩,
         ⟨"b2", Val.fin 2, Val.ninf, Val.inf, true, Val.fin 8, "B"⟩],
   some 2, none⟩

/-- The prior parameter table of `c7model`. -/
def c7old : List TRow :=
  [⟨"b1", Val.fin 1, Val.ninf, Val.inf, true, Val.fin 7, "B"⟩,
   ⟨"b2", Val.fin 2, Val.ninf, Val.inf, true, Val.fin 8, "B"⟩]

/-- Noise model with one parameter row (identity transform). -/
def c8noise : NoiseModel :=
  ⟨1, fun r _ _ _ => r, [⟨"n_a", Val.fin 10, Val.fin 0, Val.inf, true, "noise"⟩]⟩

/-- Model with a two-parameter component and a one-parameter noise model, so
the expected table row count is 3. -/
def c8model : Model :=
  ⟨[(0, Val.fin 1)],
   [⟨"B", 2, fun _ t => t.map (fun _ => Val.fin 0), 0, 9, false,
      [⟨"b1", Val.fin 1, Val.ninf, Val.inf, true, "B"⟩,
       ⟨"b2", Val.fin 2, Val.ninf, Val.inf, true, "B"⟩]⟩],
   some c8noise, none, none, none, none, none⟩

/-- The model produced by rebuilding `c8model`'s parameter table. -/
def c8modelInit : Model :=
  match c8model.initPars true with
  | .ok x => x
  | .error _ => c8model

/-- Component whose contribution is constantly positive infinity. -/
def c9infComp : TComponent :=
  ⟨"I", 0, fun _ t => t.map (fun _ => Val.inf), 0, 0, false, []⟩

/-- Model whose residual at the single observation is minus infinity, so the
sum of squared residuals is plus infinity (not NaN). -/
def c9infModel : Model :=
  ⟨[(0, Val.fin 1)], [c9infComp], none, none, none, none, none, none⟩

/-- Component whose contribution is constantly NaN. -/
def c9nanComp : TComponent :=
  ⟨"N", 0, fun _ t => t.map (fun _ => Val.nan), 0, 0, false, []⟩

/-- Model whose residual at the single observation is NaN, so the sum of
squared residuals is NaN. -/
def c9nanModel : Model :=
  ⟨[(0, Val.fin 1)], [c9nanComp], none, none, none, none, none, none⟩

lemma pyslice_take (ps : List Val) (o n K : Nat) (h : o + n ≤ K) :
    pyslice (ps.take K) o n = pyslice ps o n := by
  unfold pyslice
  rw [List.drop_take, List.take_take, Nat.min_eq_left (by omega)]

lemma compNparamSum_cons (c : TComponent) (rest : List TComponent) :
    compNparamSum (c :: rest) = c.nparam + compNparamSum rest := by
  simp [compNparamSum]

lemma simLoop_take :
    ∀ (reg : List TComponent) (ps : List Val) (tindex : List Int)
      (istart : Nat) (h : List Val) (K : Nat),
      istart + compNparamSum reg ≤ K →
      simLoop reg (ps.take K) tindex istart h = simLoop reg ps tindex istart h := by
  intro reg
  induction reg with
  | nil => intro ps tindex istart h K _; rfl
  | cons c rest ih =>
    intro ps tindex istart h K hK
    rw [compNparamSum_cons] at hK
    unfold simLoop
    rw [pyslice_take ps istart c.nparam K (by omega)]
    exact ih ps tindex (istart + c.nparam) _ K (by omega)

/-- Claim C1 (code bug). The spec requires check_series to clip the resolved
window to the intersection of the non-constant components' declared windows,
and to raise a requested tmin lying before the valid range up to the clipped
bound. The source initializes the tracking window at the pd.Timestamp
sentinels and then compares with `<`/`>` in the direction that can never fire
(model.py lines 221-231), so the loop is dead and the clip step at lines
237-240 never triggers: with observations on days 0..9 and a non-constant
component valid only on days 3..6, check_series(None, None) returns (0, 9)
instead of the clipped (3, 6), and a requested tmin of -5 is returned as -5
(only the non-fatal warning fires). -/
theorem check_series_no_clipping_c1 :
    c1comp.isConstant = false ∧ c1comp.tmin = 3 ∧ c1comp.tmax = 6 ∧
    obsTminI c1model = 0 ∧ obsTmaxI c1model = 9 ∧
    (c1model.check_series none none).2.1 = (0, 9) ∧
    ¬(3 ≤ (c1model.check_series none none).2.1.1 ∧
      (c1model.check_series none none).2.1.2 ≤ 6) ∧
    (c1model.check_series (some (-5)) none).2.1.1 = -5 ∧
    (c1model.check_series (some (-5)) none).2.2.1 = true := by
  decide

/-- Claim C10. check_series stores the requested (or defaulted) bounds on the
model before the clip step — the stored Period State is exactly the requested
pair — while the caller receives the pair after the clip step against the
tracking window. The model's other fields are untouched. -/
theorem check_series_stores_preclip_c10 (m : Model) (t1? t2? : Option Int) :
    (m.check_series t1? t2?).1.tmin = some (t1?.getD (obsTminI m)) ∧
    (m.check_series t1? t2?).1.tmax = some (t2?.getD (obsTmaxI m)) ∧
    (m.check_series t1? t2?).1.parameters = m.parameters ∧
    (m.check_series t1? t2?).1.report = m.report ∧
    (m.check_series t1? t2?).2.1.1 =
      max (t1?.getD (obsTminI m))
        (cslTrack m.tseriesdict (pdTimestampMin, pdTimestampMax)).1 ∧
    (m.check_series t1? t2?).2.1.2 =
      min (t2?.getD (obsTmaxI m))
        (cslTrack m.tseriesdict (pdTimestampMin, pdTimestampMax)).2 := by
  refine ⟨rfl, rfl, rfl, rfl, ?_, ?_⟩ <;>
    · simp only [Model.check_series]
      split_ifs <;> omega

/-- Claim C2, counterexample. A model with a prior fit (optimal column [5],
stored report) put through a solve call whose solver raises: the exception
escapes, the report is untouched, but the parameter table was already rebuilt
by initialize before the solver ran, so the optimal column now holds the
freshly appended NaN instead of the prior optimum — the prior Fit Result's
optimal column does not survive the failed run. -/
theorem solve_failure_overwrites_optimal_c2_cex :
    c2model.parameters.map (List.map TRow.optimal) = some [Val.fin 5] ∧
    (c2model.solve none none SolverOutcome.raises true true).err =
      some PyErr.solverError ∧
    (c2model.solve none none SolverOutcome.raises true true).model.parameters.map
      (List.map TRow.optimal) = some [Val.nan] ∧
    Val.nan ≠ Val.fin 5 :=
  ⟨rfl, rfl, rfl, by decide⟩

/-- Claim C2, amended. When the solver raises, the exception escapes solve and
the stored report is unchanged; but the model is not otherwise unmodified: the
Period State was stored and the parameter table was rebuilt from the
collaborators' fresh rows, so the prior optimal column has been replaced. -/
theorem solve_failure_state_c2 (m : Model) (t1? t2? : Option Int) (nz : Bool) :
    (m.solve t1? t2? SolverOutcome.raises nz true).err = some PyErr.solverError ∧
    (m.solve t1? t2? SolverOutcome.raises nz true).model.report = m.report ∧
    (m.solve t1? t2? SolverOutcome.raises nz true).model.parameters =
      some m.freshRows ∧
    (m.solve t1? t2? SolverOutcome.raises nz true).model.tmin =
      some (t1?.getD (obsTminI m)) :=
  ⟨rfl, rfl, rfl, rfl⟩

/-- Claim C5, counterexample. On a freshly constructed model (no calibration
run), residuals with no explicit parameter vector does fail, but with an
AttributeError from reading the nonexistent parameter table — not the clear
"model needs to be solved first" condition that simulate's assert raises. -/
theorem unfit_residuals_attribute_error_c5_cex :
    c5model.residuals none none none true =
      .error (PyErr.attributeError "parameters") ∧
    PyErr.attributeError "parameters" ≠
      PyErr.assertionError "model needs to be solved first" :=
  ⟨rfl, by decide⟩

/-- Claim C5, amended. Both entry points fail fast on an unfit model, but only
simulate gives the clear unfit-model message: simulate with no window falls
into the assert "model needs to be solved first", while residuals with no
explicit parameter vector dies on the missing parameter-table attribute. -/
theorem unfit_model_errors_c5 :
    (∀ (m : Model) (p : Option (List Val)) (t2 : Option Int),
        m.tmin = none →
        m.simulate p none t2 =
          .error (PyErr.assertionError "model needs to be solved first")) ∧
    (∀ (m : Model) (t1 t2 : Option Int) (nz : Bool),
        m.parameters = none →
        m.residuals none t1 t2 nz =
          .error (PyErr.attributeError "parameters")) := by
  constructor
  · intro m p t2 h
    simp [Model.simulate, h, Option.orElse]
  · intro m t1 t2 nz h
    simp [Model.residuals, h]

/-- Claim C5, witness for the amended theorem at the fresh model. -/
theorem unfit_model_errors_c5_witness :
    c5model.simulate none none none =
      .error (PyErr.assertionError "model needs to be solved first") ∧
    c5model.residuals none none none true =
      .error (PyErr.attributeError "parameters") :=
  ⟨unfit_model_errors_c5.1 c5model none none rfl,
   unfit_model_errors_c5.2 c5model none none true rfl⟩

/-- Claim C6, counterexample. The total component parameter count of the
example model is 2, yet simulate accepts an explicit vector of length 1
without any configuration error: the Python slice silently truncates, the
component receives a one-entry slice (its contribution reports the received
length), and the call returns a series. -/
theorem simulate_no_length_check_c6_cex :
    ([Val.fin 7] : List Val).length ≠ totalNparam c6model ∧
    pyslice [Val.fin 7] 0 2 = [Val.fin 7] ∧
    c6model.simulate (some [Val.fin 7]) (some 0) (some 1) =
      .ok [(0, Val.fin 1), (1, Val.fin 1)] :=
  ⟨by decide, rfl, rfl⟩

/-- Claim C6, amended. simulate performs no parameter-vector length
validation: every explicit vector, of any length, is accepted (the call
returns the accumulation-loop series), each component slicing its
`parameters[istart : istart + nparam]` window with silent truncation; entries
beyond the components' total parameter count — such as trailing noise-model
parameters — are ignored. -/
theorem simulate_no_validation_c6 :
    (∀ (m : Model) (ps : List Val) (a b : Int),
        m.simulate (some ps) (some a) (some b) = .ok (m.simulateCore ps a b)) ∧
    (∀ (m : Model) (ps : List Val) (a b : Int),
        m.simulateCore (ps.take (compNparamSum m.tseriesdict)) a b =
          m.simulateCore ps a b) := by
  constructor
  · intro m ps a b; rfl
  · intro m ps a b
    exact congrArg ((dateRange a b).zip)
      (simLoop_take m.tseriesdict ps (dateRange a b) 0
        ((dateRange a b).map (fun _ => Val.fin 0))
        (compNparamSum m.tseriesdict) (by omega))

lemma lookup_map_key (f : Int → Val) :
    ∀ (l : List Int) (t : Int), t ∈ l →
      lookupVal (l.map (fun x => (x, f x))) t = f t := by
  intro l
  induction l with
  | nil => intro t ht; cases ht
  | cons x xs ih =>
    intro t ht
    by_cases hx : x = t
    · subst hx; simp [lookupVal]
    · have hmem : t ∈ xs := by
        cases ht with
        | head => exact absurd rfl hx
        | tail _ hmem => exact hmem
      simpa [lookupVal, hx] using ih t hmem

/-- Claim C3. For explicit parameters and an explicit window with the noise
flag off, residuals succeeds, its series is defined exactly on the observed
timestamps inside the window, and at each such timestamp its value is the
observed value minus the value of the simulated series at that timestamp. -/
theorem residuals_pointwise_c3 (m : Model) (ps : List Val) (tmin tmax : Int)
    (r : List (Int × Val)) (w : Bool) (simS : List (Int × Val))
    (hr : m.residuals (some ps) (some tmin) (some tmax) false = .ok (r, w))
    (hs : m.simulate (some ps) (some tmin) (some tmax) = .ok simS) :
    r.map Prod.fst = calIdx m tmin tmax ∧
    ∀ t ∈ calIdx m tmin tmax,
      lookupVal r t = Val.sub (lookupVal m.oseries t) (lookupVal simS t) := by
  have hsim : simS = m.simulateCore ps tmin tmax := by
    have h0 : Except.ok (ε := PyErr) (m.simulateCore ps tmin tmax) = .ok simS := hs
    exact (Except.ok.inj h0).symm
  have hr0 : Except.ok (ε := PyErr)
      ((calIdx m tmin tmax).map (fun t =>
        (t, Val.sub (lookupVal m.oseries t)
          (lookupVal (m.simulateCore ps tmin tmax) t))),
       (sumSq (((calIdx m tmin tmax).map (fun t =>
        (t, Val.sub (lookupVal m.oseries t)
          (lookupVal (m.simulateCore ps tmin tmax) t)))).map Prod.snd)).isNan) =
      .ok (r, w) := hr
  have hrr := congrArg Prod.fst (Except.ok.inj hr0)
  simp only at hrr
  subst hsim
  subst hrr
  constructor
  · rw [List.map_map]
    exact List.map_id _
  · intro t ht
    rw [lookup_map_key _ _ t ht]

/-- Shape lemma: with explicit parameters and window, residuals always
succeeds, and the returned flag is the NaN test of the sum of squares of the
returned series. -/
lemma residuals_ok_shape (m : Model) (ps : List Val) (t0 t1 : Int) (nz : Bool) :
    ∃ R, m.residuals (some ps) (some t0) (some t1) nz =
      .ok (R, (sumSq (R.map Prod.snd)).isNan) :=
  ⟨_, rfl⟩

/-- Claim C9, counterexample. A parameter region giving an infinite (not NaN)
sum of squared residuals: the residual at the single observation is minus
infinity, the sum of squares is plus infinity — not a finite number — yet the
diagnostic flag is false because the source only tests `np.isnan`; the series
and the sse value are still returned. -/
theorem residuals_inf_no_diagnostic_c9_cex :
    c9infModel.residuals (some []) (some 0) (some 0) false =
      .ok ([(0, Val.ninf)], false) ∧
    sumSq [Val.ninf] = Val.inf ∧
    Val.isFinite Val.inf = false ∧
    Val.isNan Val.inf = false ∧
    c9infModel.sse (some []) (some 0) (some 0) false = .ok Val.inf :=
  ⟨rfl, rfl, rfl, rfl, rfl⟩

/-- Claim C9, amended. Whenever residuals succeeds, the diagnostic is emitted
exactly when the sum of squared residuals is NaN (an infinite sum emits no
diagnostic), and in every case the residual series is returned and sse
returns the sum of squares rather than raising. -/
theorem residuals_nan_flag_c9 (m : Model) (ps : List Val) (t0 t1 : Int)
    (nz : Bool) (r : List (Int × Val)) (w : Bool)
    (hr : m.residuals (some ps) (some t0) (some t1) nz = .ok (r, w)) :
    w = (sumSq (r.map Prod.snd)).isNan ∧
    m.sse (some ps) (some t0) (some t1) nz = .ok (sumSq (r.map Prod.snd)) := by
  obtain ⟨R, hR⟩ := residuals_ok_shape m ps t0 t1 nz
  have hP := Except.ok.inj (hR.symm.trans hr)
  have h1 := congrArg Prod.fst hP
  have h2 := congrArg Prod.snd hP
  simp only at h1 h2
  subst h1
  constructor
  · exact h2.symm
  · simp [Model.sse, hr]

/-- Claim C9, witness for the amended theorem: a NaN residual makes the flag
true and sse still returns the (NaN) sum of squares. -/
theorem residuals_nan_flag_c9_witness :
    c9nanModel.residuals (some []) (some 0) (some 0) false =
      .ok ([(0, Val.nan)], true) ∧
    (true = (sumSq (([((0 : Int), Val.nan)]).map Prod.snd)).isNan ∧
     c9nanModel.sse (some []) (some 0) (some 0) false =
       .ok (sumSq (([((0 : Int), Val.nan)]).map Prod.snd))) :=
  ⟨rfl, residuals_nan_flag_c9 c9nanModel [] 0 0 false [(0, Val.nan)] true rfl⟩

lemma zipAdd_length (a b : List Val) :
    (zipAdd a b).length = min a.length b.length := by
  simp [zipAdd]

lemma simLoop_length (tindex : List Int) (ps : List Val) :
    ∀ (reg : List TComponent),
      (∀ c ∈ reg, ∀ q t, (c.sim q t).length = t.length) →
      ∀ (istart : Nat) (h : List Val), h.length = tindex.length →
        (simLoop reg ps tindex istart h).length = tindex.length := by
  intro reg
  induction reg with
  | nil => intro _ istart h hh; exact hh
  | cons c rest ih =>
    intro hall istart h hh
    unfold simLoop
    apply ih (fun d hd => hall d (List.mem_cons_of_mem _ hd))
    rw [zipAdd_length, hh, hall c (List.mem_cons_self c rest)]
    exact Nat.min_self _

lemma simLoop_eq_foldl :
    ∀ (reg : List TComponent) (ps : List Val) (tindex : List Int)
      (istart : Nat) (h : List Val),
      simLoop reg ps tindex istart h =
        (contribsFrom reg ps tindex istart).foldl zipAdd h := by
  intro reg
  induction reg with
  | nil => intros; rfl
  | cons c rest ih =>
    intro ps tindex istart h
    simp [simLoop, contribsFrom, List.foldl_cons, ih]

lemma offsetAt_succ (c : TComponent) (rest : List TComponent) (j : Nat) :
    offsetAt (c :: rest) (j + 1) = c.nparam + offsetAt rest j := by
  simp [offsetAt, List.take_succ_cons]

lemma contribsFrom_getD :
    ∀ (reg : List TComponent) (ps : List Val) (tindex : List Int)
      (istart i : Nat), i < reg.length →
      (contribsFrom reg ps tindex istart).getD i [] =
        (reg.getD i dummyComp).sim
          (pyslice ps (istart + offsetAt reg i)
            (reg.getD i dummyComp).nparam) tindex := by
  intro reg
  induction reg with
  | nil => intro _ _ _ i hi; exact absurd hi (by simp)
  | cons c rest ih =>
    intro ps tindex istart i hi
    cases i with
    | zero => simp [contribsFrom, offsetAt]
    | succ j =>
      have hj : j < rest.length := by simpa using hi
      simp only [contribsFrom, List.getD_cons_succ]
      rw [ih ps tindex (istart + c.nparam) j hj, offsetAt_succ, ← Nat.add_assoc]

/-- Claim C4. With explicit parameters and window, simulate succeeds; its
series has exactly one entry per timestamp of the generated time index; its
values are the elementwise sum, starting from the zero series, of the
components' contributions in registration order; the i-th contribution is the
i-th component's simulate applied to its own contiguous nparam-sized slice of
the parameter vector starting at the sum of the earlier components' counts;
and perturbing the parameter vector outside component i's slice leaves
component i's contribution unchanged. -/
theorem simulate_sum_decomposition_c4 (m : Model) (ps : List Val)
    (tmin tmax : Int)
    (hlen : ∀ c ∈ m.tseriesdict, ∀ q t, (c.sim q t).length = t.length) :
    m.simulate (some ps) (some tmin) (some tmax) =
      .ok (m.simulateCore ps tmin tmax) ∧
    (m.simulateCore ps tmin tmax).map Prod.fst = dateRange tmin tmax ∧
    (m.simulateCore ps tmin tmax).length = (dateRange tmin tmax).length ∧
    (m.simulateCore ps tmin tmax).map Prod.snd =
      sumSeries (dateRange tmin tmax)
        (contribsFrom m.tseriesdict ps (dateRange tmin tmax) 0) ∧
    (∀ i, i < m.tseriesdict.length →
        (contribsFrom m.tseriesdict ps (dateRange tmin tmax) 0).getD i [] =
          (m.tseriesdict.getD i dummyComp).sim
            (pyslice ps (offsetAt m.tseriesdict i)
              (m.tseriesdict.getD i dummyComp).nparam)
            (dateRange tmin tmax)) ∧
    (∀ (ps' : List Val) (i : Nat), i < m.tseriesdict.length →
        pyslice ps (offsetAt m.tseriesdict i)
            (m.tseriesdict.getD i dummyComp).nparam =
          pyslice ps' (offsetAt m.tseriesdict i)
            (m.tseriesdict.getD i dummyComp).nparam →
        (contribsFrom m.tseriesdict ps (dateRange tmin tmax) 0).getD i [] =
          (contribsFrom m.tseriesdict ps' (dateRange tmin tmax) 0).getD i []) := by
  have hlen2 : (simLoop m.tseriesdict ps (dateRange tmin tmax) 0
      ((dateRange tmin tmax).map (fun _ => Val.fin 0))).length =
      (dateRange tmin tmax).length :=
    simLoop_length _ _ _ hlen 0 _ (by simp)
  refine ⟨rfl, ?_, ?_, ?_, ?_, ?_⟩
  · exact List.map_fst_zip _ _ (le_of_eq hlen2.symm)
  · show ((dateRange tmin tmax).zip _).length = _
    rw [List.length_zip, hlen2, Nat.min_self]
  · show ((dateRange tmin tmax).zip _).map Prod.snd = _
    rw [List.map_snd_zip _ _ (le_of_eq hlen2), simLoop_eq_foldl]
    rfl
  · intro i hi
    rw [contribsFrom_getD _ _ _ _ _ hi, Nat.zero_add]
  · intro ps' i hi hs
    rw [contribsFrom_getD _ _ _ _ _ hi, contribsFrom_getD _ _ _ _ _ hi,
      Nat.zero_add, hs]

/-- Claim C3, witness on the irregular two-point series with a gap at day 1. -/
theorem residuals_pointwise_c3_witness :
    c3model.residuals (some [Val.fin 4]) (some 0) (some 2) false =
      .ok ([(0, Val.fin 6), (2, Val.fin 16)], false) ∧
    c3model.simulate (some [Val.fin 4]) (some 0) (some 2) =
      .ok [(0, Val.fin 4), (1, Val.fin 4), (2, Val.fin 4)] ∧
    (2 : Int) ∈ calIdx c3model 0 2 ∧
    lookupVal [(0, Val.fin 6), (2, Val.fin 16)] 2 =
      Val.sub (lookupVal c3model.oseries 2)
        (lookupVal [(0, Val.fin 4), (1, Val.fin 4), (2, Val.fin 4)] 2) := by
  refine ⟨rfl, rfl, by decide, ?_⟩
  exact (residuals_pointwise_c3 c3model [Val.fin 4] 0 2 _ false _ rfl rfl).2
    2 (by decide)

/-- Claim C4, witness on the two-component model of Scenario B: the length
contract of the example components, the sum decomposition at a concrete
vector, and the unchanged second contribution when only the first component's
sub-vector is perturbed. -/
theorem simulate_sum_decomposition_c4_witness :
    (∀ c ∈ c4model.tseriesdict, ∀ q t, (c.sim q t).length = t.length) ∧
    (c4model.simulateCore [Val.fin 5, Val.fin 1, Val.fin 0] 0 2).map Prod.snd =
      sumSeries (dateRange 0 2)
        (contribsFrom c4model.tseriesdict [Val.fin 5, Val.fin 1, Val.fin 0]
          (dateRange 0 2) 0) ∧
    (contribsFrom c4model.tseriesdict [Val.fin 5, Val.fin 1, Val.fin 0]
        (dateRange 0 2) 0).getD 1 [] =
      (contribsFrom c4model.tseriesdict [Val.fin 9, Val.fin 1, Val.fin 0]
        (dateRange 0 2) 0).getD 1 [] := by
  have hlen : ∀ c ∈ c4model.tseriesdict, ∀ q t, (c.sim q t).length = t.length := by
    intro c hc q t
    cases hc with
    | head => simp [c4comp1]
    | tail _ hc2 =>
      cases hc2 with
      | head => simp [c4comp2]
      | tail _ hc3 => cases hc3
  refine ⟨hlen,
    (simulate_sum_decomposition_c4 c4model [Val.fin 5, Val.fin 1, Val.fin 0]
      0 2 hlen).2.2.2.1, ?_⟩
  exact (simulate_sum_decomposition_c4 c4model [Val.fin 5, Val.fin 1, Val.fin 0]
    0 2 hlen).2.2.2.2.2 [Val.fin 9, Val.fin 1, Val.fin 0] 1 (by decide) (by decide)

lemma labelLookup_skip (o : TRow) (old' : List TRow) (lab : String)
    (h : o.label ≠ lab) :
    labelLookup (o :: old') lab = labelLookup old' lab := by
  simp [labelLookup, h]

lemma labelLookup_aligned :
    ∀ (old fresh : List TRow),
      fresh.map TRow.label = old.map TRow.label →
      (old.map TRow.label).Nodup →
      fresh.map (fun r => labelLookup old r.label) = old.map TRow.optimal := by
  intro old
  induction old with
  | nil =>
    intro fresh h _
    rw [List.map_eq_nil_iff.mp h]
    rfl
  | cons o old' ih =>
    intro fresh h hnd
    cases fresh with
    | nil => simp at h
    | cons f fresh' =>
      simp only [List.map_cons, List.cons.injEq] at h
      obtain ⟨h1, h2⟩ := h
      simp only [List.map_cons, List.nodup_cons] at hnd ⊢
      obtain ⟨hno, hnd'⟩ := hnd
      refine congrArg₂ List.cons ?_ ?_
      · simp [labelLookup, h1]
      · have step : ∀ r ∈ fresh',
            labelLookup (o :: old') r.label = labelLookup old' r.label := by
          intro r hr
          apply labelLookup_skip
          intro heq
          exact hno (heq ▸ (h2 ▸ List.mem_map_of_mem TRow.label hr))
        rw [List.map_congr_left step]
        exact ih fresh' h2 hnd'

/-- Claim C7. When the stored table exists and the rebuilt table carries the
same parameter labels in the same order (no duplicates), re-initializing
without reset succeeds and the new table's initial column equals the old
table's optimal column, value for value in the same order. -/
theorem warm_start_initial_equals_optimal_c7 (m : Model) (old : List TRow)
    (h1 : m.parameters = some old)
    (h2 : m.freshRows.map TRow.label = old.map TRow.label)
    (h3 : (old.map TRow.label).Nodup) :
    ((m.initPars false).toOption.bind Model.parameters).map
        (List.map TRow.initial) =
      some (old.map TRow.optimal) := by
  simp only [Model.initPars, h1, Except.toOption, Option.bind, Bool.false_eq_true,
    if_false, Option.map_some']
  rw [List.map_map]
  exact congrArg some (labelLookup_aligned old m.freshRows h2 h3)

/-- Claim C7, witness: the prior optimal values 7 and 8 become the new initial
column after re-initializing without reset. -/
theorem warm_start_c7_witness :
    c7model.parameters = some c7old ∧
    c7model.freshRows.map TRow.label = c7old.map TRow.label ∧
    (c7old.map TRow.label).Nodup ∧
    ((c7model.initPars false).toOption.bind Model.parameters).map
        (List.map TRow.initial) =
      some (c7old.map TRow.optimal) :=
  ⟨rfl, rfl, by decide,
   warm_start_initial_equals_optimal_c7 c7model c7old rfl rfl (by decide)⟩

lemma freshRows_length (m : Model)
    (hc : ∀ c ∈ m.tseriesdict, c.parameters.length = c.nparam)
    (hn : match m.noisemodel with
          | some nm => nm.parameters.length = nm.nparam
          | none => True) :
    m.freshRows.length = totalNparam m := by
  unfold Model.freshRows totalNparam
  rw [List.length_append, List.length_flatten, List.map_map]
  congr 1
  · have step : ∀ c ∈ m.tseriesdict,
        (List.length ∘ fun c => c.parameters.map promoteRow) c = c.nparam := by
      intro c hcm
      simp [hc c hcm]
    rw [List.map_congr_left step]
  · cases hmn : m.noisemodel with
    | none => simp
    | some nm =>
      rw [hmn] at hn
      simp [hn]

/-- Claim C8. Whenever initialize succeeds (either branch), the rebuilt
parameter table's row count equals the sum of the components' nparam plus the
noise transform's nparam when one is registered, and this equals the computed
global nparam stored on the model — provided each collaborator's row set has
its declared nparam rows (the capability contract of spec section 6). -/
theorem param_table_row_count_c8 (m : Model) (b : Bool) (m' : Model)
    (hc : ∀ c ∈ m.tseriesdict, c.parameters.length = c.nparam)
    (hn : match m.noisemodel with
          | some nm => nm.parameters.length = nm.nparam
          | none => True)
    (h : m.initPars b = .ok m') :
    m'.parameters.map List.length = some (totalNparam m) ∧
    m'.nparam = some (totalNparam m) := by
  cases b with
  | true =>
    have h' := Except.ok.inj h
    constructor <;> simp [← h', freshRows_length m hc hn]
  | false =>
    cases hp : m.parameters with
    | none => simp [Model.initPars, hp] at h
    | some old =>
      simp only [Model.initPars, hp, Bool.false_eq_true, if_false] at h
      have h' := Except.ok.inj h
      constructor <;> simp [← h', freshRows_length m hc hn]

/-- Claim C8, witness: a two-parameter component plus a one-parameter noise
model give a table of exactly three rows and a global nparam of three. -/
theorem param_table_row_count_c8_witness :
    (∀ c ∈ c8model.tseriesdict, c.parameters.length = c.nparam) ∧
    (match c8model.noisemodel with
     | some nm => nm.parameters.length = nm.nparam
     | none => True) ∧
    c8model.initPars true = .ok c8modelInit ∧
    (c8modelInit.parameters.map List.length = some (totalNparam c8model) ∧
     c8modelInit.nparam = some (totalNparam c8model)) := by
  have hc : ∀ c ∈ c8model.tseriesdict, c.parameters.length = c.nparam := by
    decide
  have hn : (match c8model.noisemodel with
             | some nm => nm.parameters.length = nm.nparam
             | none => True) := rfl
  exact ⟨hc, hn, rfl, param_table_row_count_c8 c8model true c8modelInit hc hn rfl⟩

end Pasta
